import Mathlib

/-!
Verification of the part-label generator (`labelpart.py`).

The file embeds the pure data-manipulation core of the program:
column detection over upper-cased headers, per-row location-value
extraction, location-key construction, grouping of rows by location key,
the per-group label rendering for the two layouts (v1 "multiple parts",
v2 "single part"), and the 4-labels-per-page pagination loop.
The slot-allocation engine described by the design document has no code
in the repository; it is modelled from the specification text where a
claim needs it.
-/

namespace LabelPart

/-! ### Characters and substring search (Python's `in` on strings) -/

/-- Prefix test on character lists. -/
def isPrefChars : List Char → List Char → Bool
  | [], _ => true
  | _ :: _, [] => false
  | a :: as, b :: bs => a == b && isPrefChars as bs

/-- Contiguous-substring test on character lists, Python's `pat in s`. -/
def hasSubChars (pat : List Char) : List Char → Bool
  | [] => isPrefChars pat []
  | c :: t => isPrefChars pat (c :: t) || hasSubChars pat t

/-- `hasSub s pat` is Python's `pat in s` for strings. -/
def hasSub (s pat : String) : Bool :=
  hasSubChars pat.data s.data

/-- Code-point comparison of characters, as Python compares strings. -/
def leChars : List Char → List Char → Bool
  | [], _ => true
  | _ :: _, [] => false
  | a :: as, b :: bs =>
    if a.val < b.val then true
    else if b.val < a.val then false
    else leChars as bs

/-- String order used when sorting group keys (Python's `<=` on `str`). -/
def strLe (a b : String) : Bool :=
  leChars a.data b.data

/-- Python's `str.upper()` (character-wise, as the headers here are ASCII). -/
def upperStr (s : String) : String :=
  String.mk (s.data.map Char.toUpper)

/-! ### Rows and data frames

A pandas row is a mapping from column names to (string) values; a
DataFrame is a column list plus a list of rows.  Cell values are modelled
as the strings the program obtains via `str(...)`.
-/

/-- A row: association list from column name to cell value. -/
def Row : Type := List (String × String)

instance : DecidableEq Row := inferInstanceAs (DecidableEq (List (String × String)))

instance : Membership (String × String) Row := inferInstanceAs (Membership _ (List (String × String)))

/-- `row.get(c)` as an `Option`. -/
def rowGet (r : Row) (c : String) : Option String :=
  ((List.find? (fun p => p.1 == c) r)).map (·.2)

/-- Python `row.get(c, d)`. -/
def rowGetD (r : Row) (c : String) (d : String) : String :=
  (rowGet r c).getD d

/-- Python `c in row`. -/
def rowHas (r : Row) (c : String) : Bool :=
  (rowGet r c).isSome

/-- Python `row[c]` (total in the embedding: rows carry all frame columns). -/
def rowGetV (r : Row) (c : String) : String :=
  rowGetD r c ""

/-- Python truthiness of an optional column name. -/
def optTruthy : Option String → Bool
  | none => false
  | some s => s != ""

/-- `row.get(c, d)` through an optional column name. -/
def rowGetDO (r : Row) (c : Option String) (d : String) : String :=
  match c with
  | none => d
  | some c' => rowGetD r c' d

/-- `c in row` through an optional column name. -/
def rowHasO (r : Row) (c : Option String) : Bool :=
  match c with
  | none => false
  | some c' => rowHas r c'

/-- An input table: the column headers and the rows. -/
structure DataFrame where
  cols : List String
  rows : List Row

/-- Upper-case the keys of a row (`df.columns = [col.upper() ...]`). -/
def upperRow (r : Row) : Row :=
  r.map fun p => (upperStr p.1, p.2)

/-! ### Column detection (`find_location_columns` and friends) -/

/-- The eight location-related column names, `find_location_columns`'s result. -/
structure LocCols where
  bus : Option String
  station : Option String
  rack : Option String
  rackNo : Option String
  rackNo1 : Option String
  rackNo2 : Option String
  level : Option String
  cell : Option String
deriving DecidableEq

/-- `find_location_columns(df)`: first-substring-match heuristics over
upper-cased headers (lines 156-180 of `labelpart.py`). -/
def find_location_columns (cols : List String) : LocCols where
  bus := (cols.find? fun c => hasSub c "BUS" && hasSub c "MODEL") <|>
    (cols.find? fun c => hasSub c "BUS")
  station := (cols.find? fun c => hasSub c "STATION" && (hasSub c "NO" || hasSub c "NUM")) <|>
    (cols.find? fun c => hasSub c "STATION")
  rack := cols.find? fun c => hasSub c "RACK" && !hasSub c "NO"
  rackNo := cols.find? fun c => hasSub c "RACK" && (hasSub c "NO" || hasSub c "NUM") &&
    !hasSub c "1ST" && !hasSub c "2ND" && !hasSub c "1" && !hasSub c "2"
  rackNo1 := cols.find? fun c => hasSub c "RACK" && hasSub c "NO" &&
    (hasSub c "1ST" || (hasSub c "1" && hasSub c "DIGIT"))
  rackNo2 := cols.find? fun c => hasSub c "RACK" && hasSub c "NO" &&
    (hasSub c "2ND" || (hasSub c "2" && hasSub c "DIGIT"))
  level := cols.find? fun c => hasSub c "LEVEL"
  cell := cols.find? fun c => hasSub c "CELL"

/-- Part-number column resolution of `generate_labels_from_excel_v1/v2`
(lines 254-255 and 446-447). -/
def resolve_part_col (cols : List String) : Option String :=
  (cols.find? fun c => hasSub c "PART" && (hasSub c "NO" || hasSub c "NUM" || hasSub c "#")) <|>
    (cols.find? fun c => c == "PARTNO" || c == "PART")

/-- Description column resolution (`next((col for col in cols if 'DESC' in col), None)`). -/
def resolve_desc_col (cols : List String) : Option String :=
  cols.find? fun c => hasSub c "DESC"

/-- The part-number column the generators actually use: the resolved one,
else the table's first column (`if not part_no_col: part_no_col = cols[0]`). -/
def usedPartCol (cols : List String) : Option String :=
  resolve_part_col cols <|> cols.head?

/-- The description column the generators actually use
(`desc_col = cols[1] if len(cols) > 1 else part_no_col`). -/
def usedDescCol (cols : List String) (partCol : String) : String :=
  match resolve_desc_col cols with
  | some d => d
  | none => if 1 < cols.length then cols.getD 1 "" else partCol

/-! ### Location values and the location key -/

/-- `extract_location_values(row, ...)` (lines 117-154): seven strings, one
per coloured cell of the "Part Location" strip. -/
def extract_location_values (row : Row) (lc : LocCols) : List String :=
  let v0 := if optTruthy lc.bus && rowHasO row lc.bus then rowGetDO row lc.bus "" else ""
  let v1 := if optTruthy lc.station && rowHasO row lc.station then rowGetDO row lc.station "" else ""
  let v2 := if optTruthy lc.rack && rowHasO row lc.rack then rowGetDO row lc.rack "" else ""
  let v3 :=
    if optTruthy lc.rackNo1 && rowHasO row lc.rackNo1 then rowGetDO row lc.rackNo1 ""
    else if optTruthy lc.rackNo && rowHasO row lc.rackNo then
      let v := rowGetDO row lc.rackNo ""
      if v != "" && decide (1 ≤ v.length) then v.take 1 else ""
    else ""
  let v4 :=
    if optTruthy lc.rackNo2 && rowHasO row lc.rackNo2 then rowGetDO row lc.rackNo2 ""
    else if optTruthy lc.rackNo && rowHasO row lc.rackNo then
      let v := rowGetDO row lc.rackNo ""
      if v != "" && decide (2 ≤ v.length) then (v.drop 1).take 1 else ""
    else ""
  let v5 := if optTruthy lc.level && rowHasO row lc.level then rowGetDO row lc.level "" else ""
  let v6 := if optTruthy lc.cell && rowHasO row lc.cell then rowGetDO row lc.cell "" else ""
  [v0, v1, v2, v3, v4, v5, v6]

/-- The seven components joined by `create_location_key` (lines 209-236):
bus model, station, rack, the two rack-number digits, level, cell. -/
def keyValues (row : Row) (lc : LocCols) : List String :=
  let kv : Option String → String := fun c => if optTruthy c then rowGetDO row c "" else ""
  let d1 :=
    if optTruthy lc.rackNo1 then rowGetDO row lc.rackNo1 ""
    else if optTruthy lc.rackNo then
      let v := rowGetDO row lc.rackNo ""
      if v != "" then v.take 1 else ""
    else ""
  let d2 :=
    if optTruthy lc.rackNo2 then rowGetDO row lc.rackNo2 ""
    else if optTruthy lc.rackNo then
      let v := rowGetDO row lc.rackNo ""
      if decide (1 < v.length) then (v.drop 1).take 1 else ""
    else ""
  [kv lc.bus, kv lc.station, kv lc.rack, d1, d2, kv lc.level, kv lc.cell]

/-- `create_location_key(row, ...)`: `'_'.join(values)` over `keyValues`. -/
def create_location_key (row : Row) (lc : LocCols) : String :=
  String.intercalate "_" (keyValues row lc)

/-- Modelled from the spec: "A location key is defined as the ordered join
of `(station?, rack, rack_digit_1, rack_digit_2, level, cell)`" — the
six-component key the specification says the compositor groups by, with a
missing component contributing an empty string.  Built to be compared with
the source's `create_location_key`. -/
def specSixKey (row : Row) (lc : LocCols) : String :=
  let kv : Option String → String := fun c => if optTruthy c then rowGetDO row c "" else ""
  let d1 :=
    if optTruthy lc.rackNo1 then rowGetDO row lc.rackNo1 ""
    else if optTruthy lc.rackNo then
      let v := rowGetDO row lc.rackNo ""
      if v != "" then v.take 1 else ""
    else ""
  let d2 :=
    if optTruthy lc.rackNo2 then rowGetDO row lc.rackNo2 ""
    else if optTruthy lc.rackNo then
      let v := rowGetDO row lc.rackNo ""
      if decide (1 < v.length) then (v.drop 1).take 1 else ""
    else ""
  String.intercalate "_" [kv lc.station, kv lc.rack, d1, d2, kv lc.level, kv lc.cell]

/-! ### Grouping (`df.groupby('location_key')`) -/

/-- The distinct keys in ascending order (pandas `groupby` sorts keys). -/
def sortedKeys (key : Row → String) (rows : List Row) : List String :=
  ((rows.map key).dedup).insertionSort fun a b => strLe a b = true

/-- `df.groupby(key)`: for each distinct key in ascending order, the rows
carrying that key, in input order. -/
def groupByKey (key : Row → String) (rows : List Row) : List (String × List Row) :=
  (sortedKeys key rows).map fun k => (k, rows.filter fun r => key r == k)

/-! ### Labels, page elements, and the generation loop -/

/-- The content of one printed label.  `v1` ("multiple parts") shows two
part-number/description pairs, `v2` ("single part") shows one; both end
with the seven coloured location cells. -/
inductive Label where
  | v1 (p1 d1 p2 d2 : String) (loc : List String)
  | v2 (p d : String) (loc : List String)
deriving DecidableEq

/-- One item of the flowable stream handed to the PDF builder. -/
inductive Element where
  | pageBreak
  | label (lb : Label)
deriving DecidableEq

/-- The v1 loop body (lines 292-312): `group.head(2)`; a two-row group
uses its first two rows, a one-row group uses its only row twice, an
empty group is skipped (`continue`). -/
def renderGroupV1 (pc dc : String) (lc : LocCols) : List Row → Option Label
  | [] => none
  | [r] => some (.v1 (rowGetV r pc) (rowGetV r dc) (rowGetV r pc) (rowGetV r dc)
      (extract_location_values r lc))
  | r1 :: r2 :: _ => some (.v1 (rowGetV r1 pc) (rowGetV r1 dc) (rowGetV r2 pc) (rowGetV r2 dc)
      (extract_location_values r1 lc))

/-- The v2 loop body (lines 484-499): only the group's first row is used. -/
def renderGroupV2 (pc dc : String) (lc : LocCols) : List Row → Option Label
  | [] => none
  | r :: _ => some (.v2 (rowGetV r pc) (rowGetV r dc) (extract_location_values r lc))

/-- The generation loop over location groups with its label counter, in
the exception-free case: `body g = none` is the empty-group `continue`
(line 299 / 490), which happens before any bookkeeping; on a rendered
group a page break is emitted when `label_count > 0 and label_count % 4
== 0` and the label follows (lines 280-307 / 472-497,
`MAX_LABELS_PER_PAGE = 4`).  An exception raised later inside the body is
modelled by `runExcAux`, of which this loop is the no-exception instance
(`runExcAux_map_some`). -/
def runLoopAux (body : α → Option Label) : Nat → List α → List Element
  | _, [] => []
  | c, g :: gs =>
    match body g with
    | none => runLoopAux body c gs
    | some lb =>
      (if 0 < c ∧ c % 4 = 0 then [Element.pageBreak] else []) ++
        Element.label lb :: runLoopAux body (c + 1) gs

/-- The generation loop, started with `label_count = 0`. -/
def runLoop (body : α → Option Label) (gs : List α) : List Element :=
  runLoopAux body 0 gs

/-- The generation loop with the failure points of the source's
`try ... except: continue` placed honestly.  `body g = none` is the
empty-group `continue` (line 299 / 490), before any bookkeeping.
`body g = some none` is an exception raised after the page break was
appended (lines 304-305 / 494-495) and `label_count` incremented (line
307 / 497) but before the label's tables were appended — the
failure-capable `Paragraph` constructions (lines 318-343 / 506-508) —
so the break, if due, stays in the stream and the counter stays
consumed, while the group contributes no label and the loop continues
with the remaining groups (`except` at lines 411-414 / 574-577).
`body g = some (some lb)` renders the label. -/
def runExcAux (body : α → Option (Option Label)) : Nat → List α → List Element
  | _, [] => []
  | c, g :: gs =>
    match body g with
    | none => runExcAux body c gs
    | some r =>
      (if 0 < c ∧ c % 4 = 0 then [Element.pageBreak] else []) ++
        (match r with
          | none => runExcAux body (c + 1) gs
          | some lb => Element.label lb :: runExcAux body (c + 1) gs)

/-- The failure-aware generation loop, started with `label_count = 0`. -/
def runLoopExc (body : α → Option (Option Label)) (gs : List α) : List Element :=
  runExcAux body 0 gs

/-- The labels carried by an element stream, in order. -/
def labelsOf (es : List Element) : List Label :=
  es.filterMap fun e =>
    match e with
    | .pageBreak => none
    | .label lb => some lb

/-- Spec-side pagination: labels laid out four to a page with a single
page break before the 5th, 9th, 13th, ... label. -/
def paginate : List Label → List Element
  | [] => []
  | [a] => [.label a]
  | [a, b] => [.label a, .label b]
  | [a, b, c] => [.label a, .label b, .label c]
  | [a, b, c, d] => [.label a, .label b, .label c, .label d]
  | a :: b :: c :: d :: e :: rest =>
    .label a :: .label b :: .label c :: .label d :: .pageBreak :: paginate (e :: rest)

/-- `generate_labels_from_excel_v1` (lines 238-428), as the element stream
handed to the PDF builder: headers are upper-cased, the part-number and
description columns are resolved (falling back to the first and second
columns), rows are grouped by `create_location_key`, and the groups are
rendered through the counting loop.  `none` models the `IndexError` of
`cols[0]` on a table with no columns at all. -/
def generate_v1 (df : DataFrame) : Option (List Element) :=
  let cols := df.cols.map upperStr
  let rows := df.rows.map upperRow
  match usedPartCol cols with
  | none => none
  | some partCol =>
    let descCol := usedDescCol cols partCol
    let lc := find_location_columns cols
    let groups := groupByKey (fun r => create_location_key r lc) rows
    some (runLoop (renderGroupV1 partCol descCol lc) (groups.map Prod.snd))

/-- `generate_labels_from_excel_v2` (lines 430-591), as the element stream
handed to the PDF builder. -/
def generate_v2 (df : DataFrame) : Option (List Element) :=
  let cols := df.cols.map upperStr
  let rows := df.rows.map upperRow
  match usedPartCol cols with
  | none => none
  | some partCol =>
    let descCol := usedDescCol cols partCol
    let lc := find_location_columns cols
    let groups := groupByKey (fun r => create_location_key r lc) rows
    some (runLoop (renderGroupV2 partCol descCol lc) (groups.map Prod.snd))

/-! ### The Slot Allocation Engine, modelled from the spec

The repository contains no allocation code; `labelpart.py` only renders
already-located rows.  The definitions below are modelled from the
specification (§3, §4.1): items grouped by container type in ascending
order, eligible racks visited in ascending rack-name order, each rack
filled level by level with cells `1..capacity`, leftover slots synthesized
as `"EMPTY"` fillers, leftover items dropped (overflow). -/

/-- Modelled from the spec: an item to be stored (§3). -/
structure Item where
  part_no : String
  description : String
  bus_model : String
  station : String
  container_type : String
deriving DecidableEq

/-- Modelled from the spec: static configuration of one rack (§3). -/
structure RackConfig where
  name : String
  levels : List String
  capacity_by_container : List (String × Nat)
deriving DecidableEq

/-- Capacity-per-level of a rack for a container type; 0 or absent means
the rack cannot hold the type. -/
def RackConfig.cap (rc : RackConfig) (ct : String) : Nat :=
  ((rc.capacity_by_container.find? fun p => p.1 == ct).map (·.2)).getD 0

/-- Modelled from the spec: a physical location, the tuple
`(rack_name, rack_digit_1, rack_digit_2, level, cell)` within one station. -/
structure Slot where
  rack : String
  rack_digit_1 : String
  rack_digit_2 : String
  level : String
  cell : Nat
deriving DecidableEq

/-- Modelled from the spec: an item bound to a slot, or a synthesized
filler with `part_no = "EMPTY"` and blank descriptive fields. -/
structure Assignment where
  part_no : String
  description : String
  slot : Slot
deriving DecidableEq

/-- A filler record for an unused physical slot. -/
def fillerOf (s : Slot) : Assignment :=
  { part_no := "EMPTY", description := "", slot := s }

/-- A rack ordinal rendered 1-based and zero-padded to two digits. -/
def padTwo (n : Nat) : String :=
  if n < 10 then "0" ++ toString n else toString n

/-- Modelled from the spec: the ordered slots of one rack for a per-level
capacity `c`: levels in configured order, cells `1..c` within a level.
`idx` is the rack's 0-based ordinal among all configured racks, from which
the two rack digits are derived. -/
def rackSlots (idx : Nat) (rc : RackConfig) (c : Nat) : List Slot :=
  rc.levels.flatMap fun lv =>
    (List.range c).map fun k =>
      { rack := rc.name
        rack_digit_1 := (padTwo (idx + 1)).take 1
        rack_digit_2 := ((padTwo (idx + 1)).drop 1).take 1
        level := lv
        cell := k + 1 }

/-- Modelled from the spec: racks eligible for a container type (non-zero
capacity entry), paired with their ordinal, in ascending rack-name order. -/
def eligibleRacks (racks : List RackConfig) (ct : String) : List (Nat × RackConfig) :=
  ((racks.enum).insertionSort fun a b => strLe a.2.name b.2.name = true).filter
    fun p => 0 < p.2.cap ct

/-- Modelled from the spec: the full ordered slot grid available to one
container type: eligible racks, then levels, then cells `1..capacity`. -/
def groupSlots (racks : List RackConfig) (ct : String) : List Slot :=
  (eligibleRacks racks ct).flatMap fun p => rackSlots p.1 p.2 (p.2.cap ct)

/-- Modelled from the spec: fill one container-type group.  Items are
assigned to the group's slots in input order; slots past the last item
become `"EMPTY"` fillers; items past the last slot are dropped (overflow). -/
def allocateGroup : List Item → List Slot → List Assignment
  | _, [] => []
  | [], s :: ss => fillerOf s :: allocateGroup [] ss
  | it :: its, s :: ss =>
    { part_no := it.part_no, description := it.description, slot := s } :: allocateGroup its ss

/-- Modelled from the spec: the distinct container types of the input, in
ascending lexical order (§4.1 step 2). -/
def containerTypes (items : List Item) : List String :=
  ((items.map Item.container_type).dedup).insertionSort fun a b => strLe a b = true

/-- Modelled from the spec: the Slot Allocation Engine for one station
(§4.1): container-type groups processed in ascending order, each filled
over its eligible-rack slot grid, with fillers for unused capacity. -/
def allocate (items : List Item) (racks : List RackConfig) : List Assignment :=
  (containerTypes items).flatMap fun ct =>
    allocateGroup (items.filter fun it => it.container_type == ct) (groupSlots racks ct)

/-! ### Helper lemmas -/

theorem take_one_empty : ("" : String).take 1 = "" := by decide

theorem string_eq_empty_iff (v : String) : v = "" ↔ v.data = [] := by
  cases v with
  | mk data =>
    constructor
    · intro h
      simpa using congrArg String.data h
    · intro h
      subst h
      rfl

theorem take_one_of_guard (v : String) :
    (if v != "" && decide (1 ≤ v.length) then v.take 1 else "") = v.take 1 := by
  by_cases h : v = ""
  · subst h
    simp [take_one_empty]
  · have hd : v.data ≠ [] := fun hh => h ((string_eq_empty_iff v).2 hh)
    have hl : 1 ≤ v.length := List.length_pos.2 hd
    simp [h, hl]

theorem drop_one_short (v : String) (hv : v.length ≤ 1) : v.drop 1 = "" := by
  apply (string_eq_empty_iff _).2
  rw [String.data_drop]
  exact List.drop_eq_nil_of_le hv

theorem second_char_of_guard (v : String) :
    (if v != "" && decide (2 ≤ v.length) then (v.drop 1).take 1 else "") = (v.drop 1).take 1 := by
  by_cases h2 : 2 ≤ v.length
  · have h : v ≠ "" := by
      intro hh
      subst hh
      exact absurd h2 (by decide)
    simp [h, h2]
  · have hdrop : v.drop 1 = "" := drop_one_short v (Nat.le_of_lt_succ (Nat.lt_of_not_le h2))
    rw [hdrop, take_one_empty]
    simp [h2]

theorem take_one_of_ne (v : String) :
    (if v != "" then v.take 1 else "") = v.take 1 := by
  by_cases h : v = ""
  · subst h
    simp [take_one_empty]
  · simp [h]

theorem second_char_of_lt (v : String) :
    (if decide (1 < v.length) then (v.drop 1).take 1 else "") = (v.drop 1).take 1 := by
  by_cases h : 1 < v.length
  · simp [h]
  · have hdrop : v.drop 1 = "" := drop_one_short v (Nat.le_of_not_lt h)
    rw [hdrop, take_one_empty]
    simp [h]

/-- The exception-free loop is the instance of the failure-aware loop
whose bodies never raise after the bookkeeping. -/
theorem runExcAux_map_some {α : Type u} (body : α → Option Label) (c : Nat) (gs : List α) :
    runExcAux (fun g => (body g).map some) c gs = runLoopAux body c gs := by
  induction gs generalizing c with
  | nil => rfl
  | cons g gs ih => cases hbg : body g <;> simp [runExcAux, runLoopAux, hbg, ih]

theorem labelsOf_append (a b : List Element) :
    labelsOf (a ++ b) = labelsOf a ++ labelsOf b := by
  simp [labelsOf]

theorem labelsOf_breakIf (P : Prop) [Decidable P] :
    labelsOf (if P then [Element.pageBreak] else []) = [] := by
  by_cases h : P <;> simp [labelsOf, h]

theorem labelsOf_label_cons (lb : Label) (es : List Element) :
    labelsOf (Element.label lb :: es) = lb :: labelsOf es := by
  simp [labelsOf]

/-- The labels the failure-aware loop emits are exactly the successfully
rendered groups' labels, in order, whatever the counter. -/
theorem labelsOf_runExcAux {α : Type u} (body : α → Option (Option Label)) (c : Nat)
    (gs : List α) :
    labelsOf (runExcAux body c gs) = gs.filterMap fun x => (body x).bind id := by
  induction gs generalizing c with
  | nil => rfl
  | cons g gs ih =>
    cases hbg : body g with
    | none =>
      simp only [runExcAux, hbg]
      rw [ih c]
      simp [List.filterMap_cons, hbg]
    | some r =>
      cases r with
      | none =>
        simp only [runExcAux, hbg, labelsOf_append, labelsOf_breakIf]
        rw [ih (c + 1)]
        simp [List.filterMap_cons, hbg]
      | some lb =>
        simp only [runExcAux, hbg, labelsOf_append, labelsOf_breakIf, labelsOf_label_cons]
        rw [ih (c + 1)]
        simp [List.filterMap_cons, hbg]

/-- Rows of a group of `groupByKey` are exactly the input rows carrying
the group's key, and every input row's key heads a group. -/
theorem mem_groupByKey_iff (key : Row → String) (rows : List Row) (r1 r2 : Row)
    (h1 : r1 ∈ rows) (h2 : r2 ∈ rows) :
    (∃ g ∈ groupByKey key rows, r1 ∈ g.2 ∧ r2 ∈ g.2) ↔ key r1 = key r2 := by
  constructor
  · rintro ⟨g, hg, m1, m2⟩
    rcases List.mem_map.1 hg with ⟨k, _, rfl⟩
    have e1 : key r1 == k := (List.mem_filter.1 m1).2
    have e2 : key r2 == k := (List.mem_filter.1 m2).2
    rw [eq_of_beq e1, eq_of_beq e2]
  · intro hkey
    refine ⟨(key r1, rows.filter fun r => key r == key r1), ?_, ?_, ?_⟩
    · apply List.mem_map_of_mem
      have : key r1 ∈ (rows.map key).dedup :=
        List.mem_dedup.2 (List.mem_map_of_mem key h1)
      exact ((List.perm_insertionSort _ _).mem_iff).2 this
    · exact List.mem_filter.2 ⟨h1, by simp⟩
    · exact List.mem_filter.2 ⟨h2, by simp [hkey]⟩

/-! ### Claims -/

/-- C10: `extract_location_values` always returns exactly seven strings and
`create_location_key` is always the underscore-join of exactly seven
component strings, for every row and every combination of present or
absent location columns; both functions are total (missing columns and
short rack-number values only contribute empty-string components). -/
theorem C10_location_extraction_total (row : Row) (lc : LocCols) :
    (extract_location_values row lc).length = 7 ∧
    (keyValues row lc).length = 7 ∧
    create_location_key row lc = String.intercalate "_" (keyValues row lc) :=
  ⟨rfl, rfl, rfl⟩

/-- C9: in the v1 ("multiple parts") layout, a location group with exactly
one record is rendered as a label whose two part slots both show that
record's part number and description — the record is duplicated rather
than the label being skipped or half blank. -/
theorem C9_single_record_rendered_twice (pc dc : String) (lc : LocCols) (r : Row) :
    renderGroupV1 pc dc lc [r] =
      some (Label.v1 (rowGetV r pc) (rowGetV r dc) (rowGetV r pc) (rowGetV r dc)
        (extract_location_values r lc)) :=
  rfl

/-- C5, counterexample: the claim says a group with two or more records
contributes exactly its first two, but the v2 ("single part") loop renders
only the first record: on a concrete two-record group the emitted label
equals the one emitted for the one-record group and carries no field of
the second record ("BBB"/"dd2"). -/
theorem C5_counterexample :
    renderGroupV2 "P" "D" (find_location_columns [])
        [[("P", "AAA"), ("D", "dd1")], [("P", "BBB"), ("D", "dd2")]] =
      renderGroupV2 "P" "D" (find_location_columns []) [[("P", "AAA"), ("D", "dd1")]] ∧
    renderGroupV2 "P" "D" (find_location_columns [])
        [[("P", "AAA"), ("D", "dd1")], [("P", "BBB"), ("D", "dd2")]] =
      some (Label.v2 "AAA" "dd1" ["", "", "", "", "", "", ""]) :=
  ⟨rfl, by decide⟩

/-- C5, amended: records beyond the first two of a location group are
never rendered in either layout; a group with two or more records
contributes exactly its first two in the v1 layout, and only its first
record in the v2 layout. -/
theorem C5_amended_at_most_first_two (pc dc : String) (lc : LocCols) (r1 r2 : Row)
    (rest : List Row) :
    renderGroupV1 pc dc lc (r1 :: r2 :: rest) =
      some (Label.v1 (rowGetV r1 pc) (rowGetV r1 dc) (rowGetV r2 pc) (rowGetV r2 dc)
        (extract_location_values r1 lc)) ∧
    renderGroupV2 pc dc lc (r1 :: r2 :: rest) =
      some (Label.v2 (rowGetV r1 pc) (rowGetV r1 dc) (extract_location_values r1 lc)) :=
  ⟨rfl, rfl⟩

/-- C7: when no separate first/second rack-digit columns resolve but a
single rack-number column does, both the rendered location strip and the
grouping key derive `rack_digit_1` and `rack_digit_2` as the first and the
second character of that column's value (empty when the value is too
short); the digits are a function of the value alone, hence stable per
rack. -/
theorem C7_rack_digits_split_from_rack_no (row : Row) (lc : LocCols) (c v : String)
    (h1 : lc.rackNo1 = none) (h2 : lc.rackNo2 = none) (h3 : lc.rackNo = some c)
    (hc : c ≠ "") (hv : rowGet row c = some v) :
    (extract_location_values row lc).get? 3 = some (v.take 1) ∧
    (extract_location_values row lc).get? 4 = some ((v.drop 1).take 1) ∧
    (keyValues row lc).get? 3 = some (v.take 1) ∧
    (keyValues row lc).get? 4 = some ((v.drop 1).take 1) := by
  have hcb : (c != "") = true := by simpa using hc
  have hgd : rowGetD row c "" = v := by simp [rowGetD, hv]
  have hhas : rowHas row c = true := by simp [rowHas, hv]
  refine ⟨?_, ?_, ?_, ?_⟩
  · simp only [extract_location_values, h1, h2, h3, optTruthy, rowHasO, rowGetDO, hgd, hhas,
      hcb, Bool.false_and, Bool.true_and, if_false, if_true, Bool.and_self]
    simp [take_one_of_guard v]
    intro h
    have hv0 : v = "" := by
      by_contra hne
      exact hne ((string_eq_empty_iff v).2 (List.eq_nil_of_length_eq_zero (h hne)))
    rw [hv0, take_one_empty]
  · simp only [extract_location_values, h1, h2, h3, optTruthy, rowHasO, rowGetDO, hgd, hhas,
      hcb, Bool.false_and, Bool.true_and, if_false, if_true, Bool.and_self]
    simp [second_char_of_guard v]
    intro h
    by_cases hv0 : v = ""
    · rw [hv0]
      decide
    · rw [drop_one_short v (Nat.lt_succ_iff.1 (h hv0)), take_one_empty]
  · simp only [keyValues, h1, h2, h3, optTruthy, rowGetDO, hgd, hcb, if_false, if_true]
    simp [take_one_of_ne v]
    intro h
    rw [h, take_one_empty]
  · simp only [keyValues, h1, h2, h3, optTruthy, rowGetDO, hgd, hcb, if_false, if_true]
    simp [second_char_of_lt v]
    intro h
    rw [drop_one_short v h, take_one_empty]

/-- C2, counterexample: the location key is not the join of the six
components `(station?, rack, rack_digit_1, rack_digit_2, level, cell)`:
on a row with a bus-model column the source key prepends the bus model as
a seventh (first) component, so it differs from the six-component join. -/
theorem C2_counterexample :
    create_location_key [("BUS MODEL", "B"), ("STATION", "S")]
        (find_location_columns ["BUS MODEL", "STATION"]) ≠
      specSixKey [("BUS MODEL", "B"), ("STATION", "S")]
        (find_location_columns ["BUS MODEL", "STATION"]) := by
  decide

/-- C2, amended: the grouping key is the ordered underscore-join of the
SEVEN components `(bus_model?, station?, rack, rack_digit_1, rack_digit_2,
level, cell)`, a missing component contributing an empty string, and two
records fall into the same location group (hence onto the same label) if
and only if their keys are equal. -/
theorem C2_amended_seven_component_key (row : Row) (lc : LocCols) (rows : List Row)
    (r1 r2 : Row) (h1 : r1 ∈ rows) (h2 : r2 ∈ rows) :
    create_location_key row lc = String.intercalate "_" (keyValues row lc) ∧
    (keyValues row lc).length = 7 ∧
    ((∃ g ∈ groupByKey (fun r => create_location_key r lc) rows, r1 ∈ g.2 ∧ r2 ∈ g.2) ↔
      create_location_key r1 lc = create_location_key r2 lc) :=
  ⟨rfl, rfl, mem_groupByKey_iff (fun r => create_location_key r lc) rows r1 r2 h1 h2⟩

/-- C2, witness: two concrete rows with equal keys land in the same group. -/
theorem C2_witness :
    ∃ g ∈ groupByKey
        (fun r => create_location_key r (find_location_columns ["BUS MODEL", "STATION"]))
        [[("BUS MODEL", "B"), ("STATION", "S")], [("BUS MODEL", "B"), ("STATION", "T")],
          [("BUS MODEL", "B"), ("STATION", "S")]],
      ([("BUS MODEL", "B"), ("STATION", "S")] : Row) ∈ g.2 ∧
        ([("BUS MODEL", "B"), ("STATION", "S")] : Row) ∈ g.2 :=
  (C2_amended_seven_component_key [] (find_location_columns ["BUS MODEL", "STATION"]) _ _ _
    (by decide) (by decide)).2.2.mpr (by decide)

/-- C4: label generation is deterministic — the element stream is a pure
function of the input table, so identical inputs yield identical ordered
output for both layouts.  (The embedding is pure because the source loop
consults nothing but the frame: grouping sorts keys, and the progress/
status widgets only display text.) -/
theorem C4_deterministic (df₁ df₂ : DataFrame) (h : df₁ = df₂) :
    generate_v1 df₁ = generate_v1 df₂ ∧ generate_v2 df₁ = generate_v2 df₂ := by
  subst h
  exact ⟨rfl, rfl⟩

/-- C4, witness: determinism at a concrete one-row table. -/
theorem C4_witness :
    generate_v1 (DataFrame.mk ["PART NO", "DESC"] [[("PART NO", "X"), ("DESC", "d")]]) =
      generate_v1 (DataFrame.mk ["PART NO", "DESC"] [[("PART NO", "X"), ("DESC", "d")]]) ∧
    generate_v2 (DataFrame.mk ["PART NO", "DESC"] [[("PART NO", "X"), ("DESC", "d")]]) =
      generate_v2 (DataFrame.mk ["PART NO", "DESC"] [[("PART NO", "X"), ("DESC", "d")]]) :=
  C4_deterministic _ _ rfl

/-- C1, counterexample: a table whose headers resolve no part-number
column does not fail — no `MissingColumnError` exists in the code — and
the run silently substitutes the first column: on headers `FOO, BAR` the
generator emits a label whose part-number field is the `FOO` value. -/
theorem C1_counterexample :
    resolve_part_col (["FOO", "BAR"].map upperStr) = none ∧
    generate_v2 (DataFrame.mk ["FOO", "BAR"] [[("FOO", "X1"), ("BAR", "D1")]]) =
      some [Element.label (Label.v2 "X1" "D1" ["", "", "", "", "", "", ""])] := by
  constructor <;> decide

/-- C1, amended: on any table with at least one column the run never
fails and produces its element stream; when no part-number column
resolves, the first column is silently used in its place (the code sets
`part_no_col = cols[0]` instead of raising). -/
theorem C1_amended_silent_fallback (df : DataFrame) (h : df.cols ≠ []) :
    (generate_v1 df).isSome ∧ (generate_v2 df).isSome ∧
    (resolve_part_col (df.cols.map upperStr) = none →
      usedPartCol (df.cols.map upperStr) = (df.cols.map upperStr).head?) := by
  have hused : (usedPartCol (df.cols.map upperStr)).isSome := by
    unfold usedPartCol
    cases hr : resolve_part_col (df.cols.map upperStr) with
    | none =>
      cases hc : df.cols with
      | nil => exact absurd hc h
      | cons a t => simp [hc]
    | some c => simp
  obtain ⟨c, hc⟩ := Option.isSome_iff_exists.1 hused
  refine ⟨?_, ?_, ?_⟩
  · simp [generate_v1, hc]
  · simp [generate_v2, hc]
  · intro hr
    simp [usedPartCol, hr]

/-- C1 amended, witness: a concrete table with unresolvable part column. -/
theorem C1_witness :
    (DataFrame.mk ["FOO"] [[("FOO", "X")]]).cols ≠ [] ∧
    (generate_v1 (DataFrame.mk ["FOO"] [[("FOO", "X")]])).isSome ∧
    (generate_v2 (DataFrame.mk ["FOO"] [[("FOO", "X")]])).isSome ∧
    (resolve_part_col ((DataFrame.mk ["FOO"] [[("FOO", "X")]]).cols.map upperStr) = none →
      usedPartCol ((DataFrame.mk ["FOO"] [[("FOO", "X")]]).cols.map upperStr) =
        ((DataFrame.mk ["FOO"] [[("FOO", "X")]]).cols.map upperStr).head?) :=
  ⟨by decide, C1_amended_silent_fallback (DataFrame.mk ["FOO"] [[("FOO", "X")]]) (by decide)⟩

/-- C3: a failure while processing one location group never aborts the
run.  With the failure points placed as in the source — the exception
strikes after the page-break/counter bookkeeping but before the label's
tables are appended — the run still completes (the loop is a total
function) and the labels of its output are exactly the successfully
rendered labels of all the other groups, in order: the failing group
contributes no label and every remaining group is still processed.
(The bookkeeping already done is not rolled back, so a failed group can
leave a page break in the stream; the claim asserts nothing about
breaks.) -/
theorem C3_failed_group_skipped {α : Type} (body : α → Option (Option Label)) (xs ys : List α)
    (g : α) (h : body g = some none) :
    labelsOf (runLoopExc body (xs ++ g :: ys)) =
      (xs ++ ys).filterMap fun x => (body x).bind id := by
  unfold runLoopExc
  rw [labelsOf_runExcAux]
  simp [h]

/-- C3, witness: a concrete middle group fails after the bookkeeping and
the loop still renders the groups around it, in order. -/
theorem C3_witness :
    (fun n : Nat => if n = 0 then some none else some (some (Label.v2 "p" "d" []))) 0 =
      some none ∧
    labelsOf (runLoopExc
        (fun n : Nat => if n = 0 then some none else some (some (Label.v2 "p" "d" [])))
        ([1] ++ 0 :: [2])) =
      ([1] ++ [2]).filterMap fun n : Nat =>
        ((if n = 0 then some none else some (some (Label.v2 "p" "d" []))).bind id) :=
  ⟨rfl, C3_failed_group_skipped
    (fun n : Nat => if n = 0 then some none else some (some (Label.v2 "p" "d" [])))
    [1] [2] 0 rfl⟩

/-- The loop over groups equals the loop over the labels it produces. -/
theorem runLoopAux_filterMap {α : Type u} (body : α → Option Label) (c : Nat) (gs : List α) :
    runLoopAux body c gs = runLoopAux (fun l : Label => some l) c (gs.filterMap body) := by
  induction gs generalizing c with
  | nil => rfl
  | cons g gs ih => cases hbg : body g <;> simp [runLoopAux, hbg, ih]

/-- Shifting the label counter by a whole page does not change the output
once at least one label was emitted. -/
theorem runLoopAux_shift (ls : List Label) :
    ∀ c : Nat, 0 < c →
      runLoopAux (fun l : Label => some l) (c + 4) ls = runLoopAux (fun l : Label => some l) c ls := by
  induction ls with
  | nil => intro c _; rfl
  | cons l ls ih =>
    intro c hc
    have hcond : (0 < c + 4 ∧ (c + 4) % 4 = 0) ↔ (0 < c ∧ c % 4 = 0) := by
      constructor
      · rintro ⟨-, hm⟩
        exact ⟨hc, by omega⟩
      · rintro ⟨-, hm⟩
        exact ⟨by omega, by omega⟩
    simp only [runLoopAux, hcond]
    have e : c + 4 + 1 = c + 1 + 4 := by omega
    rw [e, ih (c + 1) (by omega)]

/-- The counting loop over labels is exactly the four-per-page layout. -/
theorem runLoopAux_eq_paginate (ls : List Label) :
    runLoopAux (fun l : Label => some l) 0 ls = paginate ls := by
  induction ls using paginate.induct with
  | case1 => rfl
  | case2 a => rfl
  | case3 a b => rfl
  | case4 a b c => rfl
  | case5 a b c d => rfl
  | case6 a b c d e rest ih =>
    simp only [runLoopAux, paginate]
    norm_num
    rw [← ih]
    simp only [runLoopAux]
    norm_num
    rw [show (5 : Nat) = 1 + 4 by omega, runLoopAux_shift rest 1 (by omega)]

/-- C6: output is paginated at four labels per page: the loop's element
stream is exactly the emitted labels laid out four per page, with a page
break inserted exactly before the 5th, 9th, 13th, ... label, so no page
carries more than four labels. -/
theorem C6_four_labels_per_page {α : Type u} (body : α → Option Label) (gs : List α) :
    runLoop body gs = paginate (gs.filterMap body) := by
  unfold runLoop
  rw [runLoopAux_filterMap body 0 gs]
  exact runLoopAux_eq_paginate (gs.filterMap body)

/-- The slots of the assignments a group emits are exactly the group's
slot grid: items occupy a prefix, fillers the rest. -/
theorem allocateGroup_map_slot (its : List Item) (ss : List Slot) :
    (allocateGroup its ss).map Assignment.slot = ss := by
  induction ss generalizing its with
  | nil => cases its <;> rfl
  | cons s ss ih =>
    cases its with
    | nil => simp [allocateGroup, fillerOf, ih]
    | cons it its => simp [allocateGroup, ih]

/-- The slots the engine emits are the concatenated per-type slot grids. -/
theorem allocate_map_slot (items : List Item) (racks : List RackConfig) :
    (allocate items racks).map Assignment.slot =
      (containerTypes items).flatMap (groupSlots racks) := by
  simp [allocate, List.map_flatMap, allocateGroup_map_slot]

/-- Every slot of a rack's grid carries that rack's name. -/
theorem rack_of_mem_rackSlots (idx : Nat) (rc : RackConfig) (c : Nat) (s : Slot)
    (h : s ∈ rackSlots idx rc c) : s.rack = rc.name := by
  simp only [rackSlots, List.mem_flatMap, List.mem_map] at h
  obtain ⟨lv, -, k, -, rfl⟩ := h
  rfl

/-- One rack's slot grid has no duplicate slots when its level labels are
distinct. -/
theorem rackSlots_nodup (idx : Nat) (rc : RackConfig) (c : Nat)
    (h : rc.levels.Nodup) : (rackSlots idx rc c).Nodup := by
  unfold rackSlots
  rw [List.nodup_flatMap]
  constructor
  · intro lv _
    refine List.Nodup.map ?_ (List.nodup_range c)
    intro a b hab
    simpa [Slot.mk.injEq] using hab
  · refine List.Pairwise.imp ?_ h
    intro lv1 lv2 hne s hs1 hs2
    simp only [List.mem_map] at hs1 hs2
    obtain ⟨k1, -, rfl⟩ := hs1
    obtain ⟨k2, -, he⟩ := hs2
    exact hne (congrArg Slot.level he).symm

/-- Membership in the eligible-rack list. -/
theorem mem_eligibleRacks (racks : List RackConfig) (ct : String) (p : Nat × RackConfig)
    (h : p ∈ eligibleRacks racks ct) : p.2 ∈ racks ∧ 0 < p.2.cap ct := by
  unfold eligibleRacks at h
  have hm := List.mem_filter.1 h
  refine ⟨?_, by simpa using hm.2⟩
  have := ((List.perm_insertionSort _ _).mem_iff).1 hm.1
  exact List.snd_mem_of_mem_enum this

/-- Distinct configured rack names stay distinct along the eligible list. -/
theorem eligibleRacks_names_nodup (racks : List RackConfig) (ct : String)
    (h : (racks.map RackConfig.name).Nodup) :
    ((eligibleRacks racks ct).map fun p => p.2.name).Nodup := by
  have h1 : ((racks.enum).map fun p => p.2.name).Nodup := by
    have e : ((racks.enum).map fun p => p.2.name) =
        (racks.enum.map Prod.snd).map RackConfig.name := by
      rw [List.map_map]
      rfl
    rw [e, List.enum_map_snd]
    exact h
  have h2 : (((racks.enum).insertionSort fun a b => strLe a.2.name b.2.name = true).map
      fun p : Nat × RackConfig => p.2.name).Nodup :=
    ((List.perm_insertionSort _ _).symm.map (fun p : Nat × RackConfig => p.2.name)).nodup h1
  exact List.Nodup.sublist (List.Sublist.map _ (List.filter_sublist _)) h2

/-- The slot grid of one container type has no duplicate slots. -/
theorem groupSlots_nodup (racks : List RackConfig) (ct : String)
    (hname : (racks.map RackConfig.name).Nodup)
    (hlev : ∀ rc ∈ racks, rc.levels.Nodup) : (groupSlots racks ct).Nodup := by
  unfold groupSlots
  rw [List.nodup_flatMap]
  constructor
  · intro p hp
    exact rackSlots_nodup p.1 p.2 _ (hlev p.2 (mem_eligibleRacks racks ct p hp).1)
  · have hpw : (eligibleRacks racks ct).Pairwise fun a b => a.2.name ≠ b.2.name :=
      List.pairwise_map.1 (eligibleRacks_names_nodup racks ct hname)
    refine List.Pairwise.imp ?_ hpw
    intro p q hne s hsp hsq
    exact hne ((rack_of_mem_rackSlots p.1 p.2 _ s hsp).symm.trans
      (rack_of_mem_rackSlots q.1 q.2 _ s hsq))

/-- The processed container types are distinct and all come from the input. -/
theorem containerTypes_nodup (items : List Item) : (containerTypes items).Nodup :=
  ((List.perm_insertionSort _ _).symm).nodup (List.nodup_dedup _)

theorem mem_containerTypes (items : List Item) (ct : String)
    (h : ct ∈ containerTypes items) : ct ∈ items.map Item.container_type :=
  List.mem_dedup.1 (((List.perm_insertionSort _ _).mem_iff).1 h)

/-- C8, counterexample: the claim's uniqueness invariant fails when one
rack is eligible for two container types present in the input: with one
rack of capacity one for both `"A"` and `"B"` and one item of each type,
the engine (as the spec describes it) assigns both items to the same slot
tuple. -/
theorem C8_counterexample :
    ¬ ((allocate
        [{ part_no := "P1", description := "", bus_model := "", station := "",
           container_type := "A" },
         { part_no := "P2", description := "", bus_model := "", station := "",
           container_type := "B" }]
        [{ name := "Rack 01", levels := ["L1"],
           capacity_by_container := [("A", 1), ("B", 1)] }]).map Assignment.slot).Nodup := by
  decide

/-- C8, amended: within one station no two emitted assignments — item or
filler — share a slot tuple, provided rack names are distinct, each rack's
level labels are distinct, and no rack holds a non-zero capacity for more
than one of the container types present in the input (racks are not shared
between types). -/
theorem C8_amended_slot_uniqueness (items : List Item) (racks : List RackConfig)
    (hname : (racks.map RackConfig.name).Nodup)
    (hlev : ∀ rc ∈ racks, rc.levels.Nodup)
    (hone : ∀ rc ∈ racks, ∀ ct1 ∈ items.map Item.container_type,
      ∀ ct2 ∈ items.map Item.container_type,
        0 < rc.cap ct1 → 0 < rc.cap ct2 → ct1 = ct2) :
    ((allocate items racks).map Assignment.slot).Nodup := by
  rw [allocate_map_slot]
  rw [List.nodup_flatMap]
  constructor
  · intro ct _
    exact groupSlots_nodup racks ct hname hlev
  · have hcts : (containerTypes items).Pairwise fun a b => a ≠ b := containerTypes_nodup items
    refine List.Pairwise.imp_of_mem ?_ hcts
    intro ct1 ct2 hm1 hm2 hne s hs1 hs2
    obtain ⟨p, hp, hsp⟩ := List.mem_flatMap.1 hs1
    obtain ⟨q, hq, hsq⟩ := List.mem_flatMap.1 hs2
    obtain ⟨hpr, hpc⟩ := mem_eligibleRacks racks ct1 p hp
    obtain ⟨hqr, hqc⟩ := mem_eligibleRacks racks ct2 q hq
    have hnames : p.2.name = q.2.name :=
      (rack_of_mem_rackSlots p.1 p.2 _ s hsp).symm.trans
        (rack_of_mem_rackSlots q.1 q.2 _ s hsq)
    have hrc : p.2 = q.2 := List.inj_on_of_nodup_map hname hpr hqr hnames
    exact hne (hone p.2 hpr ct1 (mem_containerTypes items ct1 hm1) ct2
      (mem_containerTypes items ct2 hm2) hpc (hrc ▸ hqc))

/-- C8, witness: a configuration with one container type per rack
satisfies the hypotheses and gets duplicate-free slots. -/
theorem C8_witness :
    ((allocate
        [{ part_no := "P1", description := "", bus_model := "", station := "",
           container_type := "A" }]
        [{ name := "Rack 01", levels := ["LA", "LB"],
           capacity_by_container := [("A", 2)] },
         { name := "Rack 02", levels := ["LA"],
           capacity_by_container := [("B", 1)] }]).map Assignment.slot).Nodup :=
  C8_amended_slot_uniqueness _ _ (by decide) (by decide) (by decide)

/-- C7, witness at the spec's own example: a row whose single rack-number
column holds `"07"` yields digits `"0"` and `"7"` in the location strip
and in the grouping key. -/
theorem C7_witness :
    (LocCols.rackNo1 (find_location_columns ["RACK NO"]) = none) ∧
    (extract_location_values [("RACK NO", "07")] (find_location_columns ["RACK NO"])).get? 3 =
      some "0" ∧
    (extract_location_values [("RACK NO", "07")] (find_location_columns ["RACK NO"])).get? 4 =
      some "7" := by
  have h := C7_rack_digits_split_from_rack_no [("RACK NO", "07")]
    (find_location_columns ["RACK NO"]) "RACK NO" "07" (by decide) (by decide) (by decide)
    (by decide) (by decide)
  exact ⟨by decide, h.1, h.2.1⟩

end LabelPart
